import Mathlib

/-!
Shallow embedding of the IFCManager pipeline:
- `src/ifc_openseespy_linker/core/opensees_converter.py` (model assembly:
  node/element creation, section properties, loads), and
- `src/ifc_manager/core/ifc_parser.py` (element extraction, material
  resolution, geometry reduction, property calculation).

Python dicts iterated in insertion order are embedded as Lean lists of
key/value pairs; Python `None` as `Option.none`; float literals as exact
rationals/reals.  Node coordinates are rational triples so that the
converter's exact tuple comparisons and tolerance tests are decidable.
Arithmetic on section properties and geometry is embedded over an
arbitrary linear ordered field `K`, with the library constants
`math.pi` / `math.sqrt` passed in as parameters; the claim theorems
instantiate `K := ℝ` with `Real.pi` / `Real.sqrt` (keeping every
definition executable at `K := ℚ` for concrete evaluation).
-/

open Real

namespace IFCManager

/-- A 3D coordinate, as the tuple of three Python floats that
`opensees_converter.py` compares exactly (`tuple(coords)`) and with
per-component tolerance `1e-3` (`_find_node`). -/
abbrev Coord : Type := ℚ × ℚ × ℚ

/-- Geometry payload of a structural-element record as consumed by the
converter: `elem_data['geometry']['type']` is `'line'` (with `start`/`end`
points) or `'mesh'`. -/
inductive PyGeom : Type where
  | line (startPt endPt : Coord)
  | mesh
deriving DecidableEq

/-- One structural-element record as fed to `OpenSeesConverter` (the
fields of `elem_data` read by `_create_nodes` / `_create_elements`).  The
profile payload is opaque to node/element creation, so it is a type
parameter here; `profile := none` covers both an absent and a falsy
(`None` / empty dict) `'profile'` entry, matching the guard
`if 'profile' in elem_data and elem_data['profile']`. -/
structure ElemData (P : Type) : Type where
  etype : String
  geometry : PyGeom
  profile : Option P := none

/-- The element types `_create_elements` assembles
(`['IfcBeam', 'IfcColumn', 'IfcMember']`). -/
def linearTypes : List String := ["IfcBeam", "IfcColumn", "IfcMember"]

/-- The endpoint coordinates scanned by `_create_nodes`: for each element
with `'line'` geometry, its `start` then its `end`, in dict order. -/
def lineEndpoints {P : Type} (elems : List (ElemData P)) : List Coord :=
  elems.flatMap fun e =>
    match e.geometry with
    | .line s t => [s, t]
    | .mesh => []

/-- One step of `_create_nodes`: state is `(node_id, nodes)`; a coordinate
already present (exact tuple membership in `defined_coords`, whose key set
equals the coordinates stored in `self.nodes`) is skipped, otherwise it is
registered under the next sequential id. -/
def createNodesStep (st : ℕ × List (ℕ × Coord)) (c : Coord) : ℕ × List (ℕ × Coord) :=
  if st.2.any (fun p => p.2 = c) then st else (st.1 + 1, st.2 ++ [(st.1, c)])

/-- `_create_nodes`: fold over all line endpoints, starting from
`node_id = 1` and an empty node dict; returns `self.nodes`. -/
def createNodes {P : Type} (elems : List (ElemData P)) : List (ℕ × Coord) :=
  ((lineEndpoints elems).foldl createNodesStep (1, [])).2

/-- `_find_node`: per-component `abs (a - b) < 1e-3` closeness test. -/
def isClose (a b : Coord) : Bool :=
  |a.1 - b.1| < 1/1000 ∧ |a.2.1 - b.2.1| < 1/1000 ∧ |a.2.2 - b.2.2| < 1/1000

/-- `_find_node`: first node (in dict order) whose coordinates are within
`1e-3` of the target on every component; `None` if no node matches. -/
def findNode (nodes : List (ℕ × Coord)) (c : Coord) : Option ℕ :=
  (nodes.find? fun p => isClose p.2 c).map (·.1)

/-- A registered element (`self.elements[element_id]`): the dict holds
exactly the keys `'nodes'` (the pair `[start_node, end_node]`) and
`'type'`. -/
structure OSElement : Type where
  nodeIds : List ℕ
  etype : String
deriving DecidableEq

/-- One step of `_create_elements` over a single structural element:
only `IfcBeam`/`IfcColumn`/`IfcMember` with `'line'` geometry are
considered; both endpoint node lookups must be truthy (`if start_node and
end_node`: in Python, `None` and `0` are falsy) for the element to be
registered; otherwise the state is returned unchanged. -/
def createElementsStep {P : Type} (nodes : List (ℕ × Coord))
    (st : ℕ × List (ℕ × OSElement)) (e : ElemData P) : ℕ × List (ℕ × OSElement) :=
  if e.etype ∈ linearTypes then
    match e.geometry with
    | .line s t =>
      match findNode nodes s, findNode nodes t with
      | some a, some b =>
        if a ≠ 0 ∧ b ≠ 0 then
          (st.1 + 1, st.2 ++ [(st.1, ⟨[a, b], e.etype⟩)])
        else st
      | _, _ => st
    | .mesh => st
  else st

/-- `_create_elements`: fold over the structural elements, starting from
`element_id = 1` and an empty element dict; returns `self.elements`. -/
def createElements {P : Type} (nodes : List (ℕ × Coord)) (elems : List (ElemData P)) :
    List (ℕ × OSElement) :=
  (elems.foldl (createElementsStep nodes) (1, [])).2

/-- Profile dict of a structural element (`elem_data['profile']`):
a `shape` tag plus the optional dimension entries that
`_get_section_properties` reads with `profile.get(..., default)`.
`Option.none` models an absent (or `None`) entry. -/
structure PyProfile (K : Type) : Type where
  shape : String
  width : Option K := none
  height : Option K := none
  radius : Option K := none

/-- Section property record `{A, Iz, Iy, J}`. -/
structure SectionProps (K : Type) : Type where
  A : K
  Iz : K
  Iy : K
  J : K

variable {K : Type} [LinearOrderedField K]

/-- `self.default_section` defined in `_define_materials`. -/
def defaultSection : SectionProps K :=
  { A := 0.1, Iz := 0.001, Iy := 0.001, J := 0.0001 }

/-- `_get_section_properties`, as a function of the profile entry found in
the given dict (`none` when the key `'profile'` is missing or its value is
falsy): starts from a copy of the default section and overwrites all four
entries for a rectangular or circular shape; any other shape keeps the
default, no fault is raised.  `piK` is the library constant `math.pi`. -/
def getSectionProperties (piK : K) (profile : Option (PyProfile K)) : SectionProps K :=
  match profile with
  | none => defaultSection
  | some p =>
    if p.shape = "rectangular" then
      let b := p.width.getD 0.3
      let h := p.height.getD 0.5
      { A := b * h, Iz := b * h ^ 3 / 12, Iy := h * b ^ 3 / 12,
        J := (b * h ^ 3 + h * b ^ 3) / 12 }
    else if p.shape = "circular" then
      let r := p.radius.getD 0.2
      { A := piK * r ^ 2, Iz := piK * r ^ 4 / 4, Iy := piK * r ^ 4 / 4,
        J := piK * r ^ 4 / 2 }
    else defaultSection

/-- The registered element dict passed by `_apply_loads` to
`_get_section_properties` holds only the keys `'nodes'` and `'type'`
(see `_create_elements`), so the guard `'profile' in elem_data` is false
there and the profile entry it finds is always absent. -/
def osElementProfile (_e : OSElement) : Option (PyProfile K) := none

/-- The uniform load `w = -A * density * g` computed by `_apply_loads` for
one registered element, with `density = 7850` and `g = 9.81` hard-coded. -/
def elementLoad (piK : K) (e : OSElement) : K :=
  -((getSectionProperties piK (osElementProfile e)).A * 7850 * 9.81)

/-- `_apply_loads`: the `(element_id, w)` pairs passed to
`ops.eleLoad(..., '-beamUniform', 0, 0, w)`, one per registered element. -/
def applyLoads (piK : K) (elements : List (ℕ × OSElement)) : List (ℕ × K) :=
  elements.map fun p => (p.1, elementLoad piK p.2)

/-- Test vector: a beam from the origin to `(1,0,0)`. -/
def beamX : ElemData Unit :=
  { etype := "IfcBeam", geometry := .line (0, 0, 0) (1, 0, 0) }

/-- Test vector: a beam whose start coordinate `(1,0,0.0005)` is within
the tolerance `1e-3` of `beamX`'s end `(1,0,0)` without being equal to
it. -/
def beamNear : ElemData Unit :=
  { etype := "IfcBeam", geometry := .line (1, 0, 1/2000) (2, 0, 0) }

/-- Test vector: a beam whose start coordinate is exactly `beamX`'s end
coordinate. -/
def beamShared : ElemData Unit :=
  { etype := "IfcBeam", geometry := .line (1, 0, 0) (2, 0, 0) }

/-- Test vector: a vertical beam carrying a rectangular 0.3×0.5 profile. -/
def rectBeam : ElemData (PyProfile ℝ) :=
  { etype := "IfcBeam", geometry := .line (0, 0, 0) (0, 0, 3),
    profile := some { shape := "rectangular", width := some 0.3, height := some 0.5 } }

/-- Test vector: a beam between two points with no profile payload. -/
def beamZ : ElemData Unit :=
  { etype := "IfcBeam", geometry := .line (0, 0, 0) (0, 0, 1) }

/-- Invariant of the `_create_nodes` fold state: every stored id is below
the running counter, and entries are pairwise distinct in both id and
coordinate. -/
def NodesInv (st : ℕ × List (ℕ × Coord)) : Prop :=
  (∀ p ∈ st.2, p.1 < st.1) ∧ st.2.Pairwise (fun p q => p.1 ≠ q.1 ∧ p.2 ≠ q.2)

/-- Property maintained by the `_create_elements` fold: every registered
element references exactly the two looked-up node ids, both present as
keys of the node dict. -/
def ElemOk (nodes : List (ℕ × Coord)) (pr : ℕ × OSElement) : Prop :=
  pr.2.nodeIds.length = 2 ∧ ∀ n ∈ pr.2.nodeIds, ∃ c, (n, c) ∈ nodes

/-! Embedding of `src/ifc_manager/core/ifc_parser.py`. -/

/-- The rows of the 4×4 local-placement matrix that `extract_geometry`
reads (`matrix[i][j]` for `i < 3`, `j < 4`): a 3×3 rotation submatrix
plus the translation column `m03/m13/m23`. -/
structure Mat4 (K : Type) : Type where
  m00 : K
  m01 : K
  m02 : K
  m03 : K
  m10 : K
  m11 : K
  m12 : K
  m13 : K
  m20 : K
  m21 : K
  m22 : K
  m23 : K

/-- `extract_geometry`: the extrusion direction transformed by the
rotation submatrix only (no translation). -/
def transformDir [LinearOrderedField K] (M : Mat4 K) (d : K × K × K) : K × K × K :=
  (M.m00 * d.1 + M.m01 * d.2.1 + M.m02 * d.2.2,
   M.m10 * d.1 + M.m11 * d.2.1 + M.m12 * d.2.2,
   M.m20 * d.1 + M.m21 * d.2.1 + M.m22 * d.2.2)

/-- `extract_geometry`: `math.sqrt(dx² + dy² + dz²)`, with the library
square root passed in as `sqrtK`. -/
def vecLength [LinearOrderedField K] (sqrtK : K → K) (v : K × K × K) : K :=
  sqrtK (v.1 ^ 2 + v.2.1 ^ 2 + v.2.2 ^ 2)

/-- `extract_geometry`: `if length > 0: direction = [d/length for d in
direction]` — the direction is divided by its magnitude only when that
magnitude is strictly positive, else kept as is. -/
def normalizeDir [LinearOrderedField K] (sqrtK : K → K) (v : K × K × K) : K × K × K :=
  if vecLength sqrtK v > 0 then
    (v.1 / vecLength sqrtK v, v.2.1 / vecLength sqrtK v, v.2.2 / vecLength sqrtK v)
  else v

/-- The centerline emitted by `extract_geometry` for a linear member with
an extrusion direction in its profile: start = translation column of the
placement matrix, end = start + normalized transformed direction ×
extrusion depth. -/
def lineFromPlacement [LinearOrderedField K] (sqrtK : K → K) (M : Mat4 K)
    (dir : K × K × K) (depth : K) : (K × K × K) × (K × K × K) :=
  let loc : K × K × K := (M.m03, M.m13, M.m23)
  let d := normalizeDir sqrtK (transformDir M dir)
  (loc, (loc.1 + d.1 * depth, loc.2.1 + d.2.1 * depth, loc.2.2 + d.2.2 * depth))

/-- Geometry record written by `extract_geometry` into
`element_data['geometry']`: `'type'` is `'line'` (start/end plus the
backing mesh) or `'mesh'` (vertices/triangles only). -/
inductive ParserGeom (K : Type) : Type where
  | line (startPt endPt : K × K × K) (vertices : List (K × K × K))
      (triangles : List (ℕ × ℕ × ℕ))
  | mesh (vertices : List (K × K × K)) (triangles : List (ℕ × ℕ × ℕ))

/-- The `'type'` tag of a geometry record. -/
def ParserGeom.gtype {K : Type} : ParserGeom K → String
  | .line .. => "line"
  | .mesh .. => "mesh"

/-- The vertex list of a geometry record. -/
def ParserGeom.vertices {K : Type} : ParserGeom K → List (K × K × K)
  | .line _ _ vs _ => vs
  | .mesh vs _ => vs

/-- The triangle list of a geometry record. -/
def ParserGeom.triangles {K : Type} : ParserGeom K → List (ℕ × ℕ × ℕ)
  | .line _ _ _ ts => ts
  | .mesh _ ts => ts

/-- One entry of the materials dict built by `_extract_material`:
`{'name', 'type', optional 'thickness' (layer), optional 'profile'
(profile set), 'properties'}`. -/
structure MaterialRec (K : Type) : Type where
  name : String
  mtype : String
  thickness : Option K := none
  profileName : Option String := none
  properties : List (String × String) := []

/-- The canonical structural-element record built by
`extract_structural_elements` and mutated by the geometry / property
passes.  `volume`/`area` are `none` until (and unless) the property pass
stores a value for them; the stub calculators only ever store Python
`None`, embedded as `none` as well. -/
structure SElement (K : Type) : Type where
  id : String
  name : String
  etype : String
  geometry : Option (ParserGeom K) := none
  material : Option (List (String × MaterialRec K)) := none
  profile : Option (PyProfile K) := none
  properties : List (String × String) := []
  volume : Option K := none
  area : Option K := none

/-- `calculate_mesh_volume` is a stub (`pass`): it returns `None` for
every input. -/
def calculate_mesh_volume {K : Type} (_vertices : List (K × K × K))
    (_triangles : List (ℕ × ℕ × ℕ)) : Option K := none

/-- `calculate_mesh_area` is a stub (`pass`): it returns `None` for every
input. -/
def calculate_mesh_area {K : Type} (_vertices : List (K × K × K))
    (_triangles : List (ℕ × ℕ × ℕ)) : Option K := none

/-- `calculate_line_area` is a stub (`pass`): it returns `None` for every
input. -/
def calculate_line_area {K : Type} (_length : K) (_profile : Option (PyProfile K)) :
    Option K := none

/-- `calculate_line_volume` is a stub (`pass`): it returns `None` for
every input. -/
def calculate_line_volume {K : Type} (_length : K) (_profile : Option (PyProfile K)) :
    Option K := none

/-- `np.linalg.norm(end - start)`: the Euclidean distance between the two
centerline endpoints. -/
def euclid [LinearOrderedField K] (sqrtK : K → K) (a b : K × K × K) : K :=
  sqrtK ((b.1 - a.1) ^ 2 + (b.2.1 - a.2.1) ^ 2 + (b.2.2 - a.2.2) ^ 2)

/-- `calculate_element_properties`, per element: the first branch compares
the geometry type tag against the literal `'esh'` (as written in the
source), the second against `'line'`; a tag matching neither (notably the
`'mesh'` tag actually produced by `extract_geometry`) leaves the record
untouched.  An element whose `'geometry'` value is `None` would raise a
`TypeError` in Python (`geom['type']` on `None`); that case is outside
the claims and embedded as the identity here. -/
def calculateElementProperties [LinearOrderedField K] (sqrtK : K → K)
    (e : SElement K) : SElement K :=
  match e.geometry with
  | none => e
  | some g =>
    if g.gtype = "esh" then
      { e with volume := calculate_mesh_volume g.vertices g.triangles,
               area := calculate_mesh_area g.vertices g.triangles }
    else if g.gtype = "line" then
      match g with
      | .line s t _ _ =>
        { e with volume := calculate_line_volume (euclid sqrtK s t) e.profile,
                 area := calculate_line_area (euclid sqrtK s t) e.profile }
      | .mesh _ _ => e
    else e

/-- A material in the global catalog (`self.ifc_model.by_type('IfcMaterial')`)
together with the outcome of `ifcopenshell.util.element.get_psets(mat)`
on it: either its property sets, or an exception (`Except.error`). -/
structure CatalogMat : Type where
  name : String
  psetsOutcome : Except Unit (List (String × List (String × String))) := .ok []

/-- Flattening of a pset mapping into composite-keyed entries
(`f"{pset_name}.{prop_name}"`). -/
def flattenPsets (psets : List (String × List (String × String))) :
    List (String × String) :=
  psets.flatMap fun ps => ps.2.map fun pv => (ps.1 ++ "." ++ pv.1, pv.2)

/-- The property-merge loop of `_extract_material` for one resolved
material name: every catalog material with a matching name has its psets
merged into the entry's `properties`; a `get_psets` exception is caught
by the inner `try/except` (a warning is logged) and leaves the entry as
it was — it does not discard the material. -/
def mergeMaterialProps {K : Type} (catalog : List CatalogMat) (nm : String)
    (m : MaterialRec K) : MaterialRec K :=
  catalog.foldl
    (fun acc cm =>
      if cm.name = nm then
        match cm.psetsOutcome with
        | .error _ => acc
        | .ok psets => { acc with properties := acc.properties ++ flattenPsets psets }
      else acc)
    m

/-- One raw building-model element as seen by the extractor.  The
traversal of its external association records
(`element.HasAssociations` dispatching on the four material select kinds)
runs against opaque `ifcopenshell` objects, so its outcome is embedded as
data: either the list of `(name, entry)` pairs the loop builds, or an
exception (`Except.error`).  `profileOutcome` is the (already
fault-isolated, hence optional) result of `_extract_profile`. -/
structure RawElement (K : Type) : Type where
  globalId : String
  name : Option String := none
  etype : String
  psets : List (String × List (String × String)) := []
  assocOutcome : Except Unit (List (String × MaterialRec K)) := .ok []
  profileOutcome : Option (PyProfile K) := none

/-- `_extract_material`: the outer `try/except` turns any exception from
the association traversal into `None`; an empty materials dict is also
returned as `None` (`return materials if materials else None`); otherwise
each entry gets the catalog properties merged in. -/
def extractMaterial {K : Type} (catalog : List CatalogMat) (e : RawElement K) :
    Option (List (String × MaterialRec K)) :=
  match e.assocOutcome with
  | .error _ => none
  | .ok ms =>
    let merged := ms.map fun p => (p.1, mergeMaterialProps catalog p.1 p.2)
    if merged.isEmpty then none else some merged

/-- The structural element types enumerated by
`extract_structural_elements`. -/
def structuralTypes : List String :=
  ["IfcBeam", "IfcColumn", "IfcSlab", "IfcWall", "IfcFooting", "IfcPile", "IfcMember"]

/-- The per-element record built by the body of the
`extract_structural_elements` loop: basic attributes, flattened psets,
material via `_extract_material` (left `None` unless truthy), profile via
`_extract_profile` for linear types only. -/
def buildRecord {K : Type} (catalog : List CatalogMat) (e : RawElement K) :
    SElement K :=
  { id := e.globalId,
    name := e.name.getD "",
    etype := e.etype,
    geometry := none,
    material := extractMaterial catalog e,
    profile := if e.etype ∈ ["IfcBeam", "IfcColumn", "IfcMember"] then e.profileOutcome else none,
    properties := flattenPsets e.psets }

/-- The iteration order of `extract_structural_elements`: for each
structural type in order, all model elements of that type
(`self.ifc_model.by_type(element_type)`). -/
def recognizedElements {K : Type} (es : List (RawElement K)) : List (RawElement K) :=
  structuralTypes.flatMap fun t => es.filter fun e => e.etype = t

/-- Python dict assignment `d[k] = v`: replace in place if the key
exists, else append. -/
def dictInsert {β : Type} (k : String) (v : β) (d : List (String × β)) :
    List (String × β) :=
  if d.any (fun p => p.1 = k) then d.map (fun p => if p.1 = k then (k, v) else p)
  else d ++ [(k, v)]

/-- `extract_structural_elements`: build the record of every recognized
element and store it in `self.structural_elements` keyed by `GlobalId`. -/
def extractStructuralElements {K : Type} (catalog : List CatalogMat)
    (es : List (RawElement K)) : List (String × SElement K) :=
  (recognizedElements es).foldl
    (fun d e => dictInsert e.globalId (buildRecord catalog e) d) []

/-- The keys that can ever be present in a structural-element record: the
seven set by `extract_structural_elements` plus the `volume`/`area` keys
optionally added by `calculate_element_properties`. -/
def sElementKeys {K : Type} (_e : SElement K) : List String :=
  ["id", "name", "type", "geometry", "material", "profile", "properties",
   "volume", "area"]

/-- `count_properties_by_material`: the guard tests for the key
`'aterial'` in the element record; when it were present the body would
read the first material name and accumulate that element's volume/area
under it (`material_properties[name]['volume'] += element_data.get('volume', 0)`).
The body's reliance on a non-`None`, non-empty material dict is embedded
by matching on a nonempty entry list (in Python a `None` or empty
material would raise there). -/
def countStep [LinearOrderedField K] (acc : List (String × (K × K)))
    (e : SElement K) : List (String × (K × K)) :=
  if "aterial" ∈ sElementKeys e then
    match e.material with
    | some ((mname, _) :: _) =>
      let acc' := if acc.any (fun p => p.1 = mname) then acc else acc ++ [(mname, (0, 0))]
      acc'.map fun p =>
        if p.1 = mname then
          (p.1, (p.2.1 + e.volume.getD 0, p.2.2 + e.area.getD 0))
        else p
    | _ => acc
  else acc

/-- The fold of `count_properties_by_material` over the element records,
starting from an empty `material_properties` dict. -/
def countPropertiesByMaterial [LinearOrderedField K] (elems : List (SElement K)) :
    List (String × (K × K)) :=
  elems.foldl countStep []

/-- Test vector: a line element with a rectangular profile, as produced by
geometry extraction for a 2 m vertical member. -/
def lineElem : SElement ℝ :=
  { id := "B1", name := "beam", etype := "IfcBeam",
    geometry := some (.line (0, 0, 0) (0, 0, 2) [] []),
    profile := some { shape := "rectangular", width := some 0.3, height := some 0.5 } }

/-- Test vector: a mesh element (unit tetrahedron) as produced by
geometry extraction for a non-linear member. -/
def meshElem : SElement ℝ :=
  { id := "S1", name := "slab", etype := "IfcSlab",
    geometry := some (.mesh [(0, 0, 0), (1, 0, 0), (0, 1, 0), (0, 0, 1)]
      [(0, 1, 2), (0, 1, 3), (0, 2, 3), (1, 2, 3)]) }

/-- Test vector: a catalog whose only material raises inside `get_psets`. -/
def failCatalog : List CatalogMat := [{ name := "Steel", psetsOutcome := .error () }]

/-- Test vector: a beam whose association traversal resolves one direct
steel material. -/
def steelElem : RawElement ℝ :=
  { globalId := "E1", name := some "beam", etype := "IfcBeam",
    assocOutcome := .ok [("Steel", { name := "Steel", mtype := "material" })] }

/-- Test vector: a column whose association traversal raises. -/
def errElem : RawElement ℝ :=
  { globalId := "E2", etype := "IfcColumn", assocOutcome := .error () }

/-- Test vector: an identity rotation placed at `(5, 6, 7)`. -/
def placementM : Mat4 ℝ :=
  { m00 := 1, m01 := 0, m02 := 0, m03 := 5,
    m10 := 0, m11 := 1, m12 := 0, m13 := 6,
    m20 := 0, m21 := 0, m22 := 1, m23 := 7 }

end IFCManager

namespace IFCManager

theorem createNodesStep_inv {st : ℕ × List (ℕ × Coord)} {c : Coord}
    (h : NodesInv st) : NodesInv (createNodesStep st c) := by
  obtain ⟨hlt, hpw⟩ := h
  unfold createNodesStep
  split
  · exact ⟨hlt, hpw⟩
  · next hany =>
    constructor
    · intro p hp
      rcases List.mem_append.1 hp with hp | hp
      · exact Nat.lt_succ_of_lt (hlt p hp)
      · simp only [List.mem_singleton] at hp
        subst hp
        exact Nat.lt_succ_self _
    · rw [List.pairwise_append]
      refine ⟨hpw, List.pairwise_singleton _ _, ?_⟩
      intro p hp q hq
      simp only [List.mem_singleton] at hq
      subst hq
      refine ⟨Nat.ne_of_lt (hlt p hp), ?_⟩
      intro hpc
      exact hany (List.any_eq_true.2 ⟨p, hp, decide_eq_true hpc⟩)

theorem foldl_createNodesStep_inv (cs : List Coord) (st : ℕ × List (ℕ × Coord))
    (h : NodesInv st) : NodesInv (cs.foldl createNodesStep st) := by
  induction cs generalizing st with
  | nil => exact h
  | cons c cs ih => exact ih _ (createNodesStep_inv h)

theorem createNodesStep_subset (st : ℕ × List (ℕ × Coord)) (c : Coord) :
    st.2 ⊆ (createNodesStep st c).2 := by
  unfold createNodesStep
  split
  · exact fun _ h => h
  · exact fun p hp => List.mem_append.2 (Or.inl hp)

theorem foldl_createNodesStep_subset (cs : List Coord) (st : ℕ × List (ℕ × Coord)) :
    st.2 ⊆ (cs.foldl createNodesStep st).2 := by
  induction cs generalizing st with
  | nil => exact fun _ h => h
  | cons c cs ih =>
    exact fun p hp => ih (createNodesStep st c) (createNodesStep_subset st c hp)

theorem createNodesStep_covers (st : ℕ × List (ℕ × Coord)) (c : Coord) :
    ∃ p ∈ (createNodesStep st c).2, p.2 = c := by
  unfold createNodesStep
  split
  · next hany =>
    obtain ⟨p, hp, hpc⟩ := List.any_eq_true.1 hany
    exact ⟨p, hp, of_decide_eq_true hpc⟩
  · exact ⟨(st.1, c), List.mem_append.2 (Or.inr (List.mem_singleton.2 rfl)), rfl⟩

theorem foldl_createNodesStep_covers (cs : List Coord) (st : ℕ × List (ℕ × Coord)) :
    ∀ c ∈ cs, ∃ p ∈ (cs.foldl createNodesStep st).2, p.2 = c := by
  induction cs generalizing st with
  | nil => intro c hc; cases hc
  | cons c0 cs ih =>
    intro c hc
    rcases List.mem_cons.1 hc with hc | hc
    · subst hc
      obtain ⟨p, hp, hpc⟩ := createNodesStep_covers st c
      exact ⟨p, foldl_createNodesStep_subset cs _ hp, hpc⟩
    · exact ih _ c hc

theorem createNodes_beamNear_eval :
    createNodes [beamX, beamNear] =
      [(1, (0, 0, 0)), (2, (1, 0, 0)), (3, (1, 0, 1/2000)), (4, (2, 0, 0))] := by
  norm_num [createNodes, lineEndpoints, createNodesStep, beamX, beamNear,
    Prod.ext_iff]

theorem createNodes_beamShared_eval :
    createNodes [beamX, beamShared] = [(1, (0, 0, 0)), (2, (1, 0, 0)), (3, (2, 0, 0))] := by
  norm_num [createNodes, lineEndpoints, createNodesStep, beamX, beamShared,
    Prod.ext_iff]

theorem createElements_beamShared_eval :
    createElements (createNodes [beamX, beamShared]) [beamX, beamShared] =
      [(1, ⟨[1, 2], "IfcBeam"⟩), (2, ⟨[2, 3], "IfcBeam"⟩)] := by
  rw [createNodes_beamShared_eval]
  norm_num [createElements, createElementsStep, findNode, isClose, linearTypes,
    beamX, beamShared, List.find?]

/-- C1: claimed ε-tolerant deduplication fails at a concrete input: two
beams whose near-shared endpoint coordinates `(1,0,0)` and `(1,0,0.0005)`
are within the tolerance `1e-3` of each other nevertheless receive the
two distinct node ids 2 and 3, and the assembled node set has 4 nodes,
not 3 — `_create_nodes` deduplicates by exact tuple equality only. -/
theorem c1_counterexample :
    createNodes [beamX, beamNear] =
      [(1, (0, 0, 0)), (2, (1, 0, 0)), (3, (1, 0, 1/2000)), (4, (2, 0, 0))] ∧
    isClose (1, 0, 0) (1, 0, 1/2000) = true ∧
    (createNodes [beamX, beamNear]).length ≠ 3 := by
  refine ⟨createNodes_beamNear_eval, ?_, ?_⟩
  · norm_num [isClose, abs_lt]
  · rw [createNodes_beamNear_eval]; norm_num

/-- C1 amended: node deduplication in `_create_nodes` is by exact
coordinate equality, not by the ε=1e-3 tolerance: every assigned node has
an id and a coordinate distinct from every other node's (exactly one node
id per exact coordinate; distinct coordinates — even ones within ε — get
distinct ids), every line endpoint coordinate is assigned some node id,
and two linear elements sharing an exactly equal endpoint coordinate
yield 3 nodes, both elements referencing the shared node id 2. -/
theorem c1_exact_dedup {P : Type} (elems : List (ElemData P)) :
    (createNodes elems).Pairwise (fun p q => p.1 ≠ q.1 ∧ p.2 ≠ q.2) ∧
    (∀ c ∈ lineEndpoints elems, ∃ p ∈ createNodes elems, p.2 = c) ∧
    ((createNodes [beamX, beamShared]).length = 3 ∧
     createElements (createNodes [beamX, beamShared]) [beamX, beamShared] =
       [(1, ⟨[1, 2], "IfcBeam"⟩), (2, ⟨[2, 3], "IfcBeam"⟩)]) := by
  refine ⟨(foldl_createNodesStep_inv _ _ ⟨by simp, List.Pairwise.nil⟩).2,
    fun c hc => foldl_createNodesStep_covers _ _ c hc, ?_,
    createElements_beamShared_eval⟩
  rw [createNodes_beamShared_eval]
  rfl

/-- C1 amended witness: the coverage clause of `c1_exact_dedup` applied to
a concrete one-beam model and its start coordinate. -/
theorem c1_exact_dedup_witness :
    ∃ p ∈ createNodes [beamX], p.2 = ((0 : ℚ), (0 : ℚ), (0 : ℚ)) :=
  (c1_exact_dedup [beamX]).2.1 (0, 0, 0) (by simp [lineEndpoints, beamX])

/-- C2: the gravity load applied by `_apply_loads` does not use the
element's profile-derived area: `_apply_loads` passes the registered
element record (which holds only `'nodes'` and `'type'`) to
`_get_section_properties`, so every element gets the default area 0.1.
For a beam with a rectangular 0.3×0.5 profile the applied load is
`-0.1·7850·9.81`, while the profile-derived area is 0.15 and the load the
claim prescribes, `-0.15·7850·9.81`, is different. -/
theorem c2_loads_ignore_profile :
    applyLoads π (createElements (createNodes [rectBeam]) [rectBeam]) =
      [(1, -(0.1 * 7850 * 9.81))] ∧
    (getSectionProperties π rectBeam.profile).A = 0.15 ∧
    -((0.1 : ℝ) * 7850 * 9.81) ≠ -(0.15 * 7850 * 9.81) := by
  have hnodes : createNodes [rectBeam] = [(1, (0, 0, 0)), (2, (0, 0, 3))] := by
    norm_num [createNodes, lineEndpoints, createNodesStep, rectBeam, Prod.ext_iff]
  have helems :
      createElements (createNodes [rectBeam]) [rectBeam] = [(1, ⟨[1, 2], "IfcBeam"⟩)] := by
    rw [hnodes]
    norm_num [createElements, createElementsStep, findNode, isClose, linearTypes,
      rectBeam, List.find?]
  refine ⟨?_, ?_, by norm_num⟩
  · rw [helems]
    simp [applyLoads, elementLoad, osElementProfile, getSectionProperties, defaultSection]
  · simp only [rectBeam, getSectionProperties, Option.getD_some]
    norm_num

/-- C3: the original claim is false at a concrete input: running
`_create_elements` against an empty node set, the beam's endpoint lookup
misses (`_find_node` returns `None`), yet the run's entire output is
identical to that of a run with no elements at all — the miss leaves no
trace anywhere (nothing is surfaced or reported). -/
theorem c3_counterexample :
    findNode [] (0, 0, 0) = none ∧
    createElements [] [beamZ] = [] ∧
    createElements [] [beamZ] = createElements (P := Unit) [] [] := by
  refine ⟨rfl, ?_, ?_⟩ <;>
    simp [createElements, createElementsStep, findNode, linearTypes, beamZ]

/-- C3 amended: when the node lookup for either endpoint of a
Beam/Column/Member centerline misses, `_create_elements` silently skips
the element: the assembly state is returned unchanged (no registration,
no fault surfaced — the function has no error channel), and the full run
is indistinguishable from a run in which the element never existed. -/
theorem c3_silent_skip {P : Type} (nodes : List (ℕ × Coord))
    (e : ElemData P) (s t : Coord) (hg : e.geometry = .line s t)
    (hmiss : findNode nodes s = none ∨ findNode nodes t = none) :
    (∀ st, createElementsStep nodes st e = st) ∧
    (∀ pre post : List (ElemData P),
      createElements nodes (pre ++ e :: post) = createElements nodes (pre ++ post)) := by
  have hstep : ∀ st, createElementsStep nodes st e = st := by
    intro st
    obtain ⟨et, g, pr⟩ := e
    simp only at hg
    subst hg
    rcases hmiss with h | h
    · cases h2 : findNode nodes t <;>
        simp [createElementsStep, h, h2]
    · cases h2 : findNode nodes s <;>
        simp [createElementsStep, h, h2]
  refine ⟨hstep, fun pre post => ?_⟩
  unfold createElements
  rw [List.foldl_append, List.foldl_append, List.foldl_cons, hstep]

/-- C3 amended witness: `c3_silent_skip` applied to a concrete beam and an
empty node set, showing the one-element run equals the empty run. -/
theorem c3_silent_skip_witness :
    createElements (P := Unit) [] ([] ++ beamZ :: []) =
      createElements (P := Unit) [] ([] ++ []) :=
  (c3_silent_skip [] beamZ (0, 0, 0) (0, 0, 1) rfl (Or.inl rfl)).2 [] []

theorem findNode_mem {nodes : List (ℕ × Coord)} {c : Coord} {n : ℕ}
    (h : findNode nodes c = some n) : ∃ d, (n, d) ∈ nodes := by
  unfold findNode at h
  obtain ⟨p, hp, hpn⟩ := Option.map_eq_some'.1 h
  refine ⟨p.2, ?_⟩
  have hmem := List.mem_of_find?_eq_some hp
  subst hpn
  simpa using hmem

theorem createElementsStep_ok {P : Type} {nodes : List (ℕ × Coord)}
    {st : ℕ × List (ℕ × OSElement)} {e : ElemData P}
    (h : ∀ pr ∈ st.2, ElemOk nodes pr) :
    ∀ pr ∈ (createElementsStep nodes st e).2, ElemOk nodes pr := by
  intro pr hpr
  unfold createElementsStep at hpr
  split at hpr
  · split at hpr
    · split at hpr
      · rename_i s t a b hs ht2
        split at hpr
        · rcases List.mem_append.1 hpr with hpr | hpr
          · exact h pr hpr
          · simp only [List.mem_singleton] at hpr
            subst hpr
            refine ⟨rfl, fun n hn => ?_⟩
            rcases List.mem_cons.1 hn with hn | hn
            · subst hn; exact findNode_mem hs
            · simp only [List.mem_cons, List.not_mem_nil, or_false] at hn
              subst hn; exact findNode_mem ht2
        · exact h pr hpr
      · exact h pr hpr
    · exact h pr hpr
  · exact h pr hpr

theorem foldl_createElementsStep_ok {P : Type} (nodes : List (ℕ × Coord))
    (elems : List (ElemData P)) (st : ℕ × List (ℕ × OSElement))
    (h : ∀ pr ∈ st.2, ElemOk nodes pr) :
    ∀ pr ∈ (elems.foldl (createElementsStep nodes) st).2, ElemOk nodes pr := by
  induction elems generalizing st with
  | nil => exact h
  | cons e es ih => exact ih _ (createElementsStep_ok h)

/-- C10: every element registered by `_create_elements` references exactly
two node ids, both of which are keys of the node dict it was given — the
element set never contains a dangling node reference (an element whose
endpoint lookup returns no node is never registered). -/
theorem c10_no_dangling {P : Type} (nodes : List (ℕ × Coord))
    (elems : List (ElemData P)) (pr : ℕ × OSElement)
    (hpr : pr ∈ createElements nodes elems) :
    pr.2.nodeIds.length = 2 ∧ ∀ n ∈ pr.2.nodeIds, ∃ c, (n, c) ∈ nodes :=
  foldl_createElementsStep_ok nodes elems (1, []) (by simp) pr hpr

/-- C10 witness: `c10_no_dangling` applied to a concrete one-beam model,
whose single registered element references node ids 1 and 2. -/
theorem c10_no_dangling_witness :
    (((1 : ℕ), (⟨[1, 2], "IfcBeam"⟩ : OSElement)).2.nodeIds.length = 2 ∧
      ∀ n ∈ ((1 : ℕ), (⟨[1, 2], "IfcBeam"⟩ : OSElement)).2.nodeIds,
        ∃ c, (n, c) ∈ [((1 : ℕ), ((0 : ℚ), (0 : ℚ), (0 : ℚ))), (2, (0, 0, 1))]) :=
  c10_no_dangling [(1, (0, 0, 0)), (2, (0, 0, 1))] [beamZ] (1, ⟨[1, 2], "IfcBeam"⟩)
    (by norm_num [createElements, createElementsStep, findNode, isClose, linearTypes,
        beamZ, List.find?])

/-- C6: section properties from `_get_section_properties` satisfy the
closed-form formulas: rectangular `A = b·h`, `Iz = b·h³/12`,
`Iy = h·b³/12`, `J = (b·h³ + h·b³)/12` (so `b = 0.3`, `h = 0.5` gives
`A = 0.15`, `Iz = 0.003125`, `Iy = 0.001125`); circular `A = π·r²`,
`Iz = Iy = π·r⁴/4`, `J = π·r⁴/2`; any other shape yields the documented
default section and never a fault. -/
theorem c6_section_properties :
    (∀ b h : ℝ,
      getSectionProperties π (some { shape := "rectangular", width := some b, height := some h }) =
        { A := b * h, Iz := b * h ^ 3 / 12, Iy := h * b ^ 3 / 12,
          J := (b * h ^ 3 + h * b ^ 3) / 12 }) ∧
    (∀ r : ℝ,
      getSectionProperties π (some { shape := "circular", radius := some r }) =
        { A := π * r ^ 2, Iz := π * r ^ 4 / 4, Iy := π * r ^ 4 / 4,
          J := π * r ^ 4 / 2 }) ∧
    (∀ p : PyProfile ℝ, p.shape ≠ "rectangular" → p.shape ≠ "circular" →
      getSectionProperties π (some p) = defaultSection) ∧
    ((getSectionProperties π (some { shape := "rectangular", width := some 0.3, height := some 0.5 })).A = 0.15 ∧
     (getSectionProperties π (some { shape := "rectangular", width := some 0.3, height := some 0.5 })).Iz = 0.003125 ∧
     (getSectionProperties π (some { shape := "rectangular", width := some 0.3, height := some 0.5 })).Iy = 0.001125) := by
  refine ⟨fun b h => ?_, fun r => ?_, fun p h1 h2 => ?_, ?_, ?_, ?_⟩
  · simp [getSectionProperties]
  · simp [getSectionProperties]
  · simp [getSectionProperties, h1, h2]
  all_goals simp only [getSectionProperties, Option.getD_some]; norm_num

/-- C6 witness: the unknown-shape branch of `c6_section_properties` applied
to a concrete I-shape profile. -/
theorem c6_section_properties_witness :
    getSectionProperties π (some { shape := "I-shape" }) = defaultSection :=
  c6_section_properties.2.2.1 { shape := "I-shape" } (by decide) (by decide)

/-- C7: for a linear member with an extrusion direction, the emitted
centerline starts at the translation column of the placement matrix and
ends at start + normalized(rotation × direction) × depth, where the
division by the magnitude happens only when the magnitude is strictly
positive; a degenerate transformed direction is (necessarily) the zero
vector, is left undivided, and the end point collapses onto the start
point — no division by zero occurs. -/
theorem c7_centerline (M : Mat4 ℝ) (d : ℝ × ℝ × ℝ) (depth : ℝ) :
    (lineFromPlacement Real.sqrt M d depth).1 = (M.m03, M.m13, M.m23) ∧
    (vecLength Real.sqrt (transformDir M d) > 0 →
      (lineFromPlacement Real.sqrt M d depth).2 =
        (M.m03 + (transformDir M d).1 / vecLength Real.sqrt (transformDir M d) * depth,
         M.m13 + (transformDir M d).2.1 / vecLength Real.sqrt (transformDir M d) * depth,
         M.m23 + (transformDir M d).2.2 / vecLength Real.sqrt (transformDir M d) * depth)) ∧
    (¬ vecLength Real.sqrt (transformDir M d) > 0 →
      transformDir M d = (0, 0, 0) ∧
      (lineFromPlacement Real.sqrt M d depth).2 = (M.m03, M.m13, M.m23)) := by
  refine ⟨rfl, fun hpos => ?_, fun hneg => ?_⟩
  · simp only [lineFromPlacement, normalizeDir, if_pos hpos]
  · have hlen0 : vecLength Real.sqrt (transformDir M d) = 0 :=
      le_antisymm (not_lt.1 hneg) (Real.sqrt_nonneg _)
    have hsum : (transformDir M d).1 ^ 2 + (transformDir M d).2.1 ^ 2 +
        (transformDir M d).2.2 ^ 2 ≤ 0 := Real.sqrt_eq_zero'.1 hlen0
    have h1 : (transformDir M d).1 = 0 := by
      nlinarith [sq_nonneg (transformDir M d).1, sq_nonneg (transformDir M d).2.1,
        sq_nonneg (transformDir M d).2.2]
    have h2 : (transformDir M d).2.1 = 0 := by
      nlinarith [sq_nonneg (transformDir M d).1, sq_nonneg (transformDir M d).2.1,
        sq_nonneg (transformDir M d).2.2]
    have h3 : (transformDir M d).2.2 = 0 := by
      nlinarith [sq_nonneg (transformDir M d).1, sq_nonneg (transformDir M d).2.1,
        sq_nonneg (transformDir M d).2.2]
    refine ⟨Prod.ext h1 (Prod.ext h2 h3), ?_⟩
    simp only [lineFromPlacement, normalizeDir, if_neg hneg, h1, h2, h3]
    norm_num

/-- C7 witness: `c7_centerline` applied to an identity rotation at
`(5,6,7)` extruding along `(0,0,1)` by depth 2, giving end point
`(5,6,9)`. -/
theorem c7_centerline_witness :
    (lineFromPlacement Real.sqrt placementM (0, 0, 1) 2).2 = (5, 6, 9) := by
  have hv : transformDir placementM ((0 : ℝ), (0 : ℝ), (1 : ℝ)) = (0, 0, 1) := by
    norm_num [transformDir, placementM]
  have hlen : vecLength Real.sqrt (transformDir placementM ((0 : ℝ), (0 : ℝ), (1 : ℝ))) = 1 := by
    rw [hv]
    simp only [vecLength]
    norm_num
  have hpos : vecLength Real.sqrt (transformDir placementM ((0 : ℝ), (0 : ℝ), (1 : ℝ))) > 0 := by
    rw [hlen]; norm_num
  have h := (c7_centerline placementM (0, 0, 1) 2).2.1 hpos
  rw [h, hlen, hv]
  norm_num [placementM]

/-- C4: for a centerline element with a rectangular profile, the property
pass stores `None` for both area and volume — `calculate_line_area` and
`calculate_line_volume` are stubs returning `None` for every input, so no
shape-specific formula is applied. -/
theorem c4_line_properties_stubbed :
    (calculateElementProperties Real.sqrt lineElem).area = none ∧
    (calculateElementProperties Real.sqrt lineElem).volume = none ∧
    calculate_line_area (K := ℝ) 2 lineElem.profile = none ∧
    calculate_line_volume (K := ℝ) 2 lineElem.profile = none := by
  refine ⟨?_, ?_, rfl, rfl⟩ <;>
    simp [calculateElementProperties, lineElem, ParserGeom.gtype,
      calculate_line_area, calculate_line_volume]

/-- C5: for an element with mesh geometry the property pass computes
nothing at all: the dispatch compares the type tag against `'esh'`, which
the `'mesh'` tag never matches, so the record is returned untouched and
its volume/area stay unset; moreover even the mesh calculators themselves
are stubs returning `None`. -/
theorem c5_mesh_properties_never_computed :
    calculateElementProperties Real.sqrt meshElem = meshElem ∧
    (calculateElementProperties Real.sqrt meshElem).volume = none ∧
    (calculateElementProperties Real.sqrt meshElem).area = none ∧
    calculate_mesh_volume (K := ℝ) [(0, 0, 0), (1, 0, 0), (0, 1, 0), (0, 0, 1)]
      [(0, 1, 2), (0, 1, 3), (0, 2, 3), (1, 2, 3)] = none ∧
    calculate_mesh_area (K := ℝ) [(0, 0, 0), (1, 0, 0), (0, 1, 0), (0, 0, 1)]
      [(0, 1, 2), (0, 1, 3), (0, 2, 3), (1, 2, 3)] = none := by
  have h : calculateElementProperties Real.sqrt meshElem = meshElem := by
    simp [calculateElementProperties, meshElem, ParserGeom.gtype]
  exact ⟨h, by rw [h]; rfl, by rw [h]; rfl, rfl, rfl⟩

theorem dictInsert_of_not_mem {β : Type} (k : String) (v : β)
    (d : List (String × β)) (h : ∀ p ∈ d, p.1 ≠ k) :
    dictInsert k v d = d ++ [(k, v)] := by
  unfold dictInsert
  rw [if_neg]
  intro hany
  obtain ⟨p, hp, hpk⟩ := List.any_eq_true.1 hany
  exact h p hp (of_decide_eq_true hpk)

theorem foldl_dictInsert_eq {K : Type} (catalog : List CatalogMat)
    (rs : List (RawElement K)) :
    ∀ d : List (String × SElement K),
      ((d.map Prod.fst) ++ rs.map RawElement.globalId).Nodup →
      rs.foldl (fun d e => dictInsert e.globalId (buildRecord catalog e) d) d =
        d ++ rs.map (fun e => (e.globalId, buildRecord catalog e)) := by
  induction rs with
  | nil => intro d _; simp
  | cons e rs ih =>
    intro d hnd
    simp only [List.map_cons] at hnd
    have hk : ∀ p ∈ d, p.1 ≠ e.globalId := by
      intro p hp hpk
      have hdisj := (List.nodup_append.1 hnd).2.2
      exact hdisj (hpk ▸ List.mem_map_of_mem Prod.fst hp) (List.mem_cons_self _ _)
    rw [List.foldl_cons, dictInsert_of_not_mem _ _ _ hk]
    have hnd' : (((d ++ [(e.globalId, buildRecord catalog e)]).map Prod.fst) ++
        rs.map RawElement.globalId).Nodup := by
      simpa [List.append_assoc] using hnd
    rw [ih _ hnd']
    simp

theorem extractStructuralElements_eq_map {K : Type} (catalog : List CatalogMat)
    (es : List (RawElement K))
    (hnd : ((recognizedElements es).map RawElement.globalId).Nodup) :
    extractStructuralElements catalog es =
      (recognizedElements es).map fun e => (e.globalId, buildRecord catalog e) := by
  unfold extractStructuralElements
  rw [foldl_dictInsert_eq catalog (recognizedElements es) [] (by simpa using hnd)]
  simp

/-- C8 counterexample to the original claim: a property-lookup exception
(`get_psets` raising on the catalog's `Steel` material) does NOT leave the
element's material field absent — the inner `try/except` of
`_extract_material` catches it, and the material entry stays present with
no merged properties. -/
theorem c8_counterexample :
    extractStructuralElements failCatalog [steelElem] =
      [("E1", buildRecord failCatalog steelElem)] ∧
    (buildRecord failCatalog steelElem).material =
      some [("Steel", { name := "Steel", mtype := "material" })] ∧
    (buildRecord failCatalog steelElem).material ≠ none := by
  refine ⟨?_, ?_, ?_⟩
  · simp [extractStructuralElements, recognizedElements, structuralTypes,
      dictInsert, steelElem]
  · simp [buildRecord, extractMaterial, steelElem, failCatalog, mergeMaterialProps]
  · simp [buildRecord, extractMaterial, steelElem]

/-- C8 amended: a batch is never aborted by a per-element material
failure: with distinct GlobalIds the extraction result has exactly one
entry per recognized element, each entry is `buildRecord` of its own raw
element alone (so a failure in one element cannot change any other
element's record), and an element whose association traversal raises gets
`material = None` — while a property-lookup exception is caught
per-material by the inner handler and leaves the material entry present
(see the counterexample). -/
theorem c8_fault_isolation {K : Type} (catalog : List CatalogMat)
    (es : List (RawElement K))
    (hnd : ((recognizedElements es).map RawElement.globalId).Nodup) :
    extractStructuralElements catalog es =
      (recognizedElements es).map (fun e => (e.globalId, buildRecord catalog e)) ∧
    (extractStructuralElements catalog es).length = (recognizedElements es).length ∧
    ∀ e : RawElement K, e.assocOutcome = Except.error () →
      (buildRecord catalog e).material = none := by
  have h := extractStructuralElements_eq_map catalog es hnd
  refine ⟨h, by rw [h]; simp, fun e he => ?_⟩
  simp [buildRecord, extractMaterial, he]

/-- C8 amended witness: `c8_fault_isolation` on a two-element batch in
which the second element's association traversal raises: both elements
keep their entries and only the failed one's material is absent. -/
theorem c8_fault_isolation_witness :
    extractStructuralElements ([] : List CatalogMat) [steelElem, errElem] =
      [("E1", buildRecord [] steelElem), ("E2", buildRecord [] errElem)] ∧
    (buildRecord ([] : List CatalogMat) errElem).material = none := by
  have hnd : ((recognizedElements [steelElem, errElem]).map RawElement.globalId).Nodup := by
    simp [recognizedElements, structuralTypes, steelElem, errElem]
  have h := c8_fault_isolation ([] : List CatalogMat) [steelElem, errElem] hnd
  refine ⟨?_, h.2.2 errElem rfl⟩
  rw [h.1]
  simp [recognizedElements, structuralTypes, steelElem, errElem]

theorem countStep_id {K : Type} [LinearOrderedField K]
    (acc : List (String × (K × K))) (e : SElement K) : countStep acc e = acc := by
  rw [countStep, if_neg]
  simp [sElementKeys]

/-- C9: `count_properties_by_material` returns the empty mapping on every
element set the extractor can produce: its guard tests for the key
`'aterial'`, which is never among a structural-element record's keys, so
no element ever contributes. -/
theorem c9_count_by_material_empty (elems : List (SElement ℝ)) :
    countPropertiesByMaterial elems = [] := by
  have haux : ∀ (l : List (SElement ℝ)) (acc : List (String × (ℝ × ℝ))),
      l.foldl countStep acc = acc := by
    intro l
    induction l with
    | nil => intro acc; rfl
    | cons e es ih =>
      intro acc
      rw [List.foldl_cons, countStep_id]
      exact ih acc
  exact haux elems []

end IFCManager
